import Mathlib

/-!
Verification of the connection-lifecycle core of bazelboost/signals
(`src/include/boost/signals/connection.hpp`).

Shallow embedding conventions:
- C++ raw pointers (`void*`, object addresses, function pointers) are
  modelled as `Nat` address tokens; distinct live objects have distinct
  addresses.
- A disconnect-callback invocation is observable only as an event appended
  to a trace, `SigEvent`, carrying the callback token and its two
  arguments; the signal-side callback is additionally tagged with the
  address of the `basic_connection` body that emitted it.
- The out-of-line member functions of `connection`
  (`block`, `unblock`, `blocked`, `connected`, `disconnect`) are declared
  but not defined in the header; their bodies are modelled from the spec
  (each such definition says so in its doc comment). Everything else is
  translated directly from the header.
-/

set_option autoImplicit false

/-- One observable callback invocation. `sig body cb s d` records the
signal-side disconnect callback `cb` of the body at address `body`, invoked
with arguments `s` and `d`; `bound cb o d` records a bound-object
disconnect callback `cb` invoked with arguments `o` and `d`. -/
inductive SigEvent where
  | sig (body cb s d : Nat)
  | bound (cb o d : Nat)
deriving DecidableEq, Repr

/-- `bound_object` from connection.hpp lines 34-49: an
(object, data, disconnect-callback) triple. Pointers are address tokens. -/
structure bound_object where
  obj : Nat
  data : Nat
  disconnect : Nat
deriving DecidableEq, Repr

/-- operator== (lines 39-40): `obj == other.obj && data == other.data`. -/
def bound_object.beq (a b : bound_object) : Bool :=
  a.obj == b.obj && a.data == b.data

/-- operator< (lines 41-42): `obj < other.obj`. -/
def bound_object.lt (a b : bound_object) : Bool :=
  decide (a.obj < b.obj)

/-- operator!= (lines 45-46): `!(*this == other)`. -/
def bound_object.ne (a b : bound_object) : Bool :=
  !(bound_object.beq a b)

/-- operator> (lines 47-48): `!(*this < other)`. -/
def bound_object.gt (a b : bound_object) : Bool :=
  !(bound_object.lt a b)

/-- `basic_connection` from connection.hpp lines 54-61: the shared record
for one attachment. -/
structure basic_connection where
  signal : Nat
  signal_data : Nat
  signal_disconnect : Nat
  blocked_ : Bool
  bound_objects : List bound_object
deriving DecidableEq, Repr

/-- `connection` from connection.hpp lines 68-127: a weak reference to the
body (`slot_`, modelled as the body address or `none`) plus the raw
identity pointer used for comparisons. -/
structure connection where
  slot_ : Option Nat
  identity_ : Nat
deriving DecidableEq, Repr

/-- Default constructor (lines 75-77): empty weak reference, identity set
to the address of the handle itself (`identity_ = this`); `self` is that
fresh address. -/
def connection.default (self : Nat) : connection :=
  { slot_ := none, identity_ := self }

/-- Copy constructor (lines 79-81): copies `slot_` and `identity_`. -/
def connection.copy (c : connection) : connection :=
  { slot_ := c.slot_, identity_ := c.identity_ }

/-- operator== (lines 101-103): compares `identity_` only. -/
def connection.ceq (a b : connection) : Bool :=
  a.identity_ == b.identity_

/-- operator< (lines 104-106): compares `identity_` only. -/
def connection.clt (a b : connection) : Bool :=
  decide (a.identity_ < b.identity_)

/-- Copy assignment (lines 109-113): overwrites `slot_` and `identity_`
of the target with the source fields and returns the target. -/
def connection.assign (t other : connection) : connection :=
  { t with slot_ := other.slot_, identity_ := other.identity_ }

/-- swap (lines 116-119): swaps the `slot_` weak references and the
`identity_` pointers of the two handles, returning the pair
(new this, new other). -/
def connection.swap (t other : connection) : connection × connection :=
  ({ slot_ := other.slot_, identity_ := other.identity_ },
   { slot_ := t.slot_, identity_ := t.identity_ })

/-- `connection_slot_pair` from connection.hpp lines 159-173: a connection
together with a type-erased slot (`boost::any`, opaque here). -/
structure connection_slot_pair where
  first : connection
  second : Nat
deriving DecidableEq, Repr

/-- connection_slot_pair operator== (line 171): always returns false. -/
def connection_slot_pair.eqOp (_p _q : connection_slot_pair) : Bool :=
  false

/-- connection_slot_pair operator< (line 172): always returns false. -/
def connection_slot_pair.ltOp (_p _q : connection_slot_pair) : Bool :=
  false

/-- Association-list lookup of a body by address in the heap of live
`basic_connection` bodies; `none` means the body has been destroyed
(a weak reference to it no longer resolves). -/
def findBody : List (Nat × basic_connection) → Nat → Option basic_connection
  | [], _ => none
  | (k, v) :: rest, a => if k = a then some v else findBody rest a

/-- Removes every entry at address `a` from the heap (body destruction). -/
def eraseBody : List (Nat × basic_connection) → Nat → List (Nat × basic_connection)
  | [], _ => []
  | (k, v) :: rest, a =>
      if k = a then eraseBody rest a else (k, v) :: eraseBody rest a

/-- Overwrites the `blocked_` flag of the body at address `a`, if present;
never inserts a body. -/
def setBlocked : List (Nat × basic_connection) → Nat → Bool →
    List (Nat × basic_connection)
  | [], _, _ => []
  | (k, v) :: rest, a, val =>
      if k = a then (k, { v with blocked_ := val }) :: setBlocked rest a val
      else (k, v) :: setBlocked rest a val

/-- The observable state: the heap of live bodies and the trace of
disconnect-callback invocations so far. -/
structure World where
  bodies : List (Nat × basic_connection)
  trace : List SigEvent
deriving DecidableEq, Repr

/-- Modelled from the spec (the out-of-line body of
`connection::connected`, declared at connection.hpp line 98, is not in
src/): true iff the weak reference `slot_` resolves to a live body. -/
def connection.connected (c : connection) (w : World) : Bool :=
  match c.slot_ with
  | none => false
  | some a => (findBody w.bodies a).isSome

/-- Modelled from the spec (the out-of-line body of
`connection::blocked`, declared at connection.hpp line 92, is not in
src/): delegates to the body's `blocked_` flag; false if the body is
gone. -/
def connection.blocked (c : connection) (w : World) : Bool :=
  match c.slot_ with
  | none => false
  | some a =>
    match findBody w.bodies a with
    | none => false
    | some b => b.blocked_

/-- Modelled from the spec (the out-of-line body of
`connection::block`, declared at connection.hpp line 88, is not in src/):
sets the body's `blocked_` flag to `should_block`; silent no-op if the
body is gone. -/
def connection.block (c : connection) (should_block : Bool) (w : World) :
    World :=
  match c.slot_ with
  | none => w
  | some a =>
    match findBody w.bodies a with
    | none => w
    | some _ => { w with bodies := setBlocked w.bodies a should_block }

/-- Modelled from the spec (the out-of-line body of
`connection::unblock`, declared at connection.hpp line 90, is not in
src/): clears the body's `blocked_` flag; silent no-op if the body is
gone. -/
def connection.unblock (c : connection) (w : World) : World :=
  connection.block c false w

/-- Modelled from the spec (the out-of-line body of
`connection::disconnect`, declared at connection.hpp line 95, is not in
src/): if the body is still live, invokes `signal_disconnect(signal,
signal_data)` once, then each bound object's `disconnect(obj, data)`
callback, and the signal drops its strong reference, destroying the body;
a no-op if the weak reference is empty or the body is already gone. -/
def connection.disconnect (c : connection) (w : World) : World :=
  match c.slot_ with
  | none => w
  | some a =>
    match findBody w.bodies a with
    | none => w
    | some b =>
      { bodies := eraseBody w.bodies a,
        trace := w.trace ++
          SigEvent.sig a b.signal_disconnect b.signal b.signal_data ::
          b.bound_objects.map
            (fun o => SigEvent.bound o.disconnect o.obj o.data) }

/-- One public mutating operation on some connection handle. -/
inductive SigOp where
  | block (c : connection) (should_block : Bool)
  | unblock (c : connection)
  | disconnect (c : connection)
deriving DecidableEq, Repr

/-- Applies one operation to the world. -/
def World.step (w : World) : SigOp → World
  | .block c v => connection.block c v w
  | .unblock c => connection.unblock c w
  | .disconnect c => connection.disconnect c w

/-- Applies a sequence of operations left to right. -/
def World.run (w : World) : List SigOp → World
  | [] => w
  | op :: rest => (w.step op).run rest

/-- How many times the signal-side disconnect callback of the body at
address `a` occurs in a trace. -/
def sigCountOf (es : List SigEvent) (a : Nat) : Nat :=
  es.countP (fun e =>
    match e with
    | .sig b _ _ _ => b == a
    | .bound _ _ _ => false)

/-- `is_disconnected` from connection.hpp lines 176-184:
`!c.first.connected()`. -/
def is_disconnected (w : World) (p : connection_slot_pair) : Bool :=
  !(connection.connected p.first w)

/-- `is_callable` from connection.hpp lines 188-196:
`c.first.connected() && !c.first.blocked()`. -/
def is_callable (w : World) (p : connection_slot_pair) : Bool :=
  connection.connected p.first w && !(connection.blocked p.first w)

/-- `auto_disconnect_bound_object` from connection.hpp lines 200-218:
a bound object plus the `auto_disconnect` flag. -/
structure auto_disconnect_bound_object where
  binding : bound_object
  auto_disconnect : Bool
deriving DecidableEq, Repr

/-- Constructor (lines 202-205): stores the binding, sets
`auto_disconnect` to true, and performs no callback invocation (the
returned event list is what construction emits: nothing). -/
def auto_disconnect_bound_object.construct (b : bound_object) :
    auto_disconnect_bound_object × List SigEvent :=
  ({ binding := b, auto_disconnect := true }, [])

/-- `release` (line 213): clears `auto_disconnect`. -/
def auto_disconnect_bound_object.release (g : auto_disconnect_bound_object) :
    auto_disconnect_bound_object :=
  { g with auto_disconnect := false }

/-- Destructor (lines 207-211): invokes
`binding.disconnect(binding.obj, binding.data)` iff `auto_disconnect` is
still set; the returned list is the events destruction emits. -/
def auto_disconnect_bound_object.destroy (g : auto_disconnect_bound_object) :
    List SigEvent :=
  if g.auto_disconnect then
    [SigEvent.bound g.binding.disconnect g.binding.obj g.binding.data]
  else []

/-- `release` applied `n` times to the guard. -/
def auto_disconnect_bound_object.releaseN
    (g : auto_disconnect_bound_object) : Nat → auto_disconnect_bound_object
  | 0 => g
  | n + 1 => auto_disconnect_bound_object.releaseN g.release n

theorem findBody_eraseBody (l : List (Nat × basic_connection)) (x a : Nat) :
    findBody (eraseBody l x) a = if a = x then none else findBody l a := by
  induction l with
  | nil => simp only [eraseBody, findBody]; split <;> rfl
  | cons p rest ih =>
    obtain ⟨k, v⟩ := p
    by_cases hkx : k = x
    · subst hkx
      by_cases hak : a = k
      · subst hak
        simp [eraseBody, ih]
      · simp [eraseBody, findBody, ih, hak, Ne.symm hak]
    · by_cases hka : k = a
      · subst hka
        simp [eraseBody, findBody, hkx, Ne.symm hkx]
      · simp [eraseBody, findBody, hkx, hka, ih]

theorem findBody_setBlocked (l : List (Nat × basic_connection)) (x : Nat)
    (v : Bool) (a : Nat) :
    findBody (setBlocked l x v) a =
      if a = x then (findBody l a).map (fun b => { b with blocked_ := v })
      else findBody l a := by
  induction l with
  | nil => simp only [setBlocked, findBody, Option.map_none]; split <;> rfl
  | cons p rest ih =>
    obtain ⟨k, v0⟩ := p
    by_cases hkx : k = x
    · subst hkx
      by_cases hak : a = k
      · subst hak
        simp [setBlocked, findBody]
      · simp [setBlocked, findBody, ih, hak, Ne.symm hak]
    · by_cases hka : k = a
      · subst hka
        simp [setBlocked, findBody, hkx, Ne.symm hkx]
      · simp [setBlocked, findBody, hkx, hka, ih]

theorem sigCountOf_append (l1 l2 : List SigEvent) (a : Nat) :
    sigCountOf (l1 ++ l2) a = sigCountOf l1 a + sigCountOf l2 a := by
  simp [sigCountOf, List.countP_append]

theorem sigCountOf_boundMap (bs : List bound_object) (a : Nat) :
    sigCountOf
      (bs.map (fun o => SigEvent.bound o.disconnect o.obj o.data)) a = 0 := by
  induction bs with
  | nil => rfl
  | cons o rest ih => simp [sigCountOf, List.countP_cons, ih]

theorem step_absent (w : World) (a : Nat) (op : SigOp)
    (h : findBody w.bodies a = none) :
    findBody (w.step op).bodies a = none ∧
    sigCountOf (w.step op).trace a = sigCountOf w.trace a := by
  cases op with
  | block c v =>
    simp only [World.step, connection.block]
    split
    · exact ⟨h, rfl⟩
    · split
      · exact ⟨h, rfl⟩
      · exact ⟨by simp [findBody_setBlocked, h], rfl⟩
  | unblock c =>
    simp only [World.step, connection.unblock, connection.block]
    split
    · exact ⟨h, rfl⟩
    · split
      · exact ⟨h, rfl⟩
      · exact ⟨by simp [findBody_setBlocked, h], rfl⟩
  | disconnect c =>
    simp only [World.step, connection.disconnect]
    split
    · exact ⟨h, rfl⟩
    next x hslot =>
      split
      · exact ⟨h, rfl⟩
      next b hfx =>
        have hxa : x ≠ a := by
          intro he
          rw [he, h] at hfx
          exact Option.noConfusion hfx
        refine ⟨?_, ?_⟩
        · simp [findBody_eraseBody, h, Ne.symm hxa]
        · have hb := sigCountOf_boundMap b.bound_objects a
          simp only [sigCountOf] at hb ⊢
          simp [List.countP_append, List.countP_cons, hxa, hb]

theorem run_absent (w : World) (a : Nat) (ops : List SigOp)
    (h : findBody w.bodies a = none) :
    findBody (w.run ops).bodies a = none ∧
    sigCountOf (w.run ops).trace a = sigCountOf w.trace a := by
  induction ops generalizing w with
  | nil => exact ⟨h, rfl⟩
  | cons op rest ih =>
    simp only [World.run]
    obtain ⟨h1, h2⟩ := step_absent w a op h
    obtain ⟨h3, h4⟩ := ih (w.step op) h1
    exact ⟨h3, by rw [h4, h2]⟩

theorem disconnect_absent_self (w : World) (c : connection) (a : Nat)
    (ha : c.slot_ = some a) :
    findBody (connection.disconnect c w).bodies a = none := by
  simp only [connection.disconnect, ha]
  split
  next heq => exact heq
  next b hfx => simp [findBody_eraseBody]

theorem releaseN_auto_disconnect (g : auto_disconnect_bound_object)
    (n : Nat) : (g.releaseN (n + 1)).auto_disconnect = false := by
  induction n generalizing g with
  | zero => rfl
  | succ m ih =>
    simpa [auto_disconnect_bound_object.releaseN] using ih g.release

/-- C10: the comparison operators of `connection_slot_pair` are dummies:
`p == q` and `p < q` return false for all pairs, including `p == p`, so
the equality is not reflexive and the ordering orders nothing. -/
theorem C10_pair_dummy_comparisons (p q : connection_slot_pair) :
    connection_slot_pair.eqOp p q = false
    ∧ connection_slot_pair.ltOp p q = false
    ∧ connection_slot_pair.eqOp p p = false :=
  ⟨rfl, rfl, rfl⟩

/-- C8: `bound_object` equality is defined on the (obj, data) pair only,
independent of the disconnect callbacks, and `!=` is its negation. -/
theorem C8_bound_object_equality (a b : bound_object) (d1 d2 : Nat) :
    bound_object.beq a b = (a.obj == b.obj && a.data == b.data)
    ∧ bound_object.ne a b = !(bound_object.beq a b)
    ∧ bound_object.beq { a with disconnect := d1 } { b with disconnect := d2 }
        = bound_object.beq a b :=
  ⟨rfl, rfl, rfl⟩

/-- C5 counterexample: for two bound objects with equal object addresses,
`a > b` evaluates to true (operator> is the negation of operator<, not the
flip), refuting the claim that `a > b` holds iff `b < a` and that neither
holds at equal addresses. -/
theorem C5_counterexample :
    bound_object.gt { obj := 0, data := 0, disconnect := 0 }
        { obj := 0, data := 1, disconnect := 1 } = true
    ∧ bound_object.lt { obj := 0, data := 1, disconnect := 1 }
        { obj := 0, data := 0, disconnect := 0 } = false := by
  decide

/-- C5 amended: `a < b` iff a's object address is less than b's, and
`a > b` is the negation of `a < b` (so it holds iff a's object address is
greater than or equal to b's); consequently at equal object addresses
`a < b` is false while `a > b` is true. -/
theorem C5_ordering_amended (a b : bound_object) :
    bound_object.lt a b = decide (a.obj < b.obj)
    ∧ bound_object.gt a b = !(bound_object.lt a b)
    ∧ (a.obj = b.obj →
        bound_object.lt a b = false ∧ bound_object.gt a b = true) := by
  refine ⟨rfl, rfl, fun h => ?_⟩
  simp [bound_object.lt, bound_object.gt, h]

/-- C5 witness: the amended ordering claim evaluated at two concrete bound
objects with equal object addresses. -/
theorem C5_ordering_amended_witness :
    bound_object.lt { obj := 0, data := 0, disconnect := 0 }
        { obj := 0, data := 1, disconnect := 1 } = false
    ∧ bound_object.gt { obj := 0, data := 0, disconnect := 0 }
        { obj := 0, data := 1, disconnect := 1 } = true :=
  (C5_ordering_amended { obj := 0, data := 0, disconnect := 0 }
    { obj := 0, data := 1, disconnect := 1 }).2.2 rfl

/-- C2: connection equality and ordering are functions of the `identity_`
tokens alone (so they never dereference the body and are unaffected by
disconnection or body destruction, which touch only the world, not the
handles), and copy construction and copy assignment preserve the identity
token, so any two copies originating from the same attachment compare
equal. -/
theorem C2_equality_identity_only (c d a b : connection) :
    connection.ceq a b = (a.identity_ == b.identity_)
    ∧ connection.clt a b = decide (a.identity_ < b.identity_)
    ∧ (connection.copy c).identity_ = c.identity_
    ∧ (connection.assign d c).identity_ = c.identity_
    ∧ connection.ceq (connection.copy c) (connection.assign d c) = true
    ∧ connection.ceq (connection.copy c)
        (connection.copy (connection.copy c)) = true := by
  refine ⟨rfl, rfl, rfl, rfl, ?_, ?_⟩ <;>
    simp [connection.ceq, connection.copy, connection.assign]

/-- C9: swap has value semantics over the (weak reference, identity) pair:
`swap a b` exchanges the two handles wholesale, a double swap restores
them, and after the swap the first handle compares equal to a pre-swap
copy of the second. -/
theorem C9_swap_value_semantics (x y : connection) :
    connection.swap x y = (y, x)
    ∧ connection.swap (connection.swap x y).1 (connection.swap x y).2 =
        (x, y)
    ∧ connection.ceq (connection.swap x y).1 (connection.copy y) = true := by
  refine ⟨rfl, rfl, ?_⟩
  simp [connection.ceq, connection.swap, connection.copy]

/-- C3: `is_disconnected` is exactly the negation of the connection's
connected state, `is_callable` is exactly connected-and-not-blocked (both
are pure functions of the pair and the world, performing no mutation), and
for a connected but blocked connection `is_callable` is false while
`is_disconnected` is false. -/
theorem C3_invocation_predicates (w : World) (p : connection_slot_pair) :
    is_disconnected w p = !(connection.connected p.first w)
    ∧ is_callable w p =
        (connection.connected p.first w && !(connection.blocked p.first w))
    ∧ (connection.connected p.first w = true →
        connection.blocked p.first w = true →
        is_callable w p = false ∧ is_disconnected w p = false) := by
  refine ⟨rfl, rfl, fun h1 h2 => ?_⟩
  simp [is_callable, is_disconnected, h1, h2]

/-- C3 witness: the predicates evaluated on a pair whose connection is
connected and blocked (one live body at address 0 with its blocked flag
set). -/
theorem C3_invocation_predicates_witness :
    is_callable (⟨[(0, ⟨1, 2, 3, true, []⟩)], []⟩ : World)
        (⟨⟨some 0, 7⟩, 9⟩ : connection_slot_pair) = false
    ∧ is_disconnected (⟨[(0, ⟨1, 2, 3, true, []⟩)], []⟩ : World)
        (⟨⟨some 0, 7⟩, 9⟩ : connection_slot_pair) = false :=
  (C3_invocation_predicates ⟨[(0, ⟨1, 2, 3, true, []⟩)], []⟩
    ⟨⟨some 0, 7⟩, 9⟩).2.2 rfl rfl

/-- C4: guard construction emits no callback invocation; if `release` is
applied at least once before destruction, destruction emits nothing; if it
is never applied, destruction emits exactly one invocation of the bound
object's disconnect callback with its obj and data handles as
arguments. -/
theorem C4_auto_disconnect_guard (b : bound_object) (n : Nat)
    (hn : 1 ≤ n) :
    (auto_disconnect_bound_object.construct b).2 = []
    ∧ ((auto_disconnect_bound_object.construct b).1.releaseN n).destroy = []
    ∧ (auto_disconnect_bound_object.construct b).1.destroy =
        [SigEvent.bound b.disconnect b.obj b.data] := by
  refine ⟨rfl, ?_, rfl⟩
  obtain ⟨m, rfl⟩ := Nat.exists_eq_add_of_le hn
  rw [Nat.add_comm 1 m]
  simp [auto_disconnect_bound_object.destroy, releaseN_auto_disconnect]

/-- C4 witness: the guard claim evaluated at a concrete bound object with
a single release. -/
theorem C4_auto_disconnect_guard_witness :
    1 ≤ 1
    ∧ ((auto_disconnect_bound_object.construct ⟨4, 5, 6⟩).1.releaseN
        1).destroy = []
    ∧ (auto_disconnect_bound_object.construct ⟨4, 5, 6⟩).1.destroy =
        [SigEvent.bound 6 4 5] :=
  ⟨Nat.le_refl 1,
   (C4_auto_disconnect_guard ⟨4, 5, 6⟩ 1 (Nat.le_refl 1)).2.1,
   (C4_auto_disconnect_guard ⟨4, 5, 6⟩ 1 (Nat.le_refl 1)).2.2⟩

theorem disconnect_of_absent (w : World) (c : connection) (a : Nat)
    (ha : c.slot_ = some a) (h : findBody w.bodies a = none) :
    connection.disconnect c w = w := by
  simp only [connection.disconnect, ha, h]

/-- C1: after `c.disconnect()` the connection reports not-connected
forever (no subsequent block/unblock/disconnect operation on any handle
can make it true again), a further disconnect through any copy of `c`
(any handle with the same weak reference) is a no-op on the world, the
first disconnect of a connected attachment emits the body's signal-side
disconnect callback exactly once more, and no later operation ever emits
it again. -/
theorem C1_disconnect_permanent_idempotent (w : World) (c c2 : connection)
    (a : Nat) (ops : List SigOp)
    (ha : c.slot_ = some a) (hcopy : c2.slot_ = c.slot_) :
    connection.connected c ((connection.disconnect c w).run ops) = false
    ∧ connection.disconnect c2 (connection.disconnect c w) =
        connection.disconnect c w
    ∧ (connection.connected c w = true →
        sigCountOf (connection.disconnect c w).trace a =
          sigCountOf w.trace a + 1)
    ∧ sigCountOf ((connection.disconnect c w).run ops).trace a =
        sigCountOf (connection.disconnect c w).trace a := by
  have habs := disconnect_absent_self w c a ha
  obtain ⟨habs2, hcount⟩ := run_absent (connection.disconnect c w) a ops habs
  refine ⟨?_, ?_, ?_, hcount⟩
  · simp [connection.connected, ha, habs2]
  · exact disconnect_of_absent _ c2 a (by rw [hcopy, ha]) habs
  · intro hconn
    have hs : (findBody w.bodies a).isSome = true := by
      simpa [connection.connected, ha] using hconn
    obtain ⟨b, hb⟩ := Option.isSome_iff_exists.mp hs
    have hbm := sigCountOf_boundMap b.bound_objects a
    simp only [sigCountOf] at hbm ⊢
    simp only [connection.disconnect, ha, hb]
    simp [List.countP_append, List.countP_cons, hbm]

/-- C1 witness: a world with one live connected body at address 0, a
handle referring to it, an empty further operation list; all four parts
of the claim evaluated there. -/
theorem C1_disconnect_permanent_idempotent_witness :
    connection.connected ⟨some 0, 5⟩
        ((connection.disconnect ⟨some 0, 5⟩
          (⟨[(0, ⟨1, 2, 3, false, []⟩)], []⟩ : World)).run []) = false
    ∧ connection.disconnect ⟨some 0, 5⟩
        (connection.disconnect ⟨some 0, 5⟩
          (⟨[(0, ⟨1, 2, 3, false, []⟩)], []⟩ : World)) =
        connection.disconnect ⟨some 0, 5⟩
          (⟨[(0, ⟨1, 2, 3, false, []⟩)], []⟩ : World)
    ∧ sigCountOf (connection.disconnect ⟨some 0, 5⟩
          (⟨[(0, ⟨1, 2, 3, false, []⟩)], []⟩ : World)).trace 0 =
        sigCountOf (⟨[(0, ⟨1, 2, 3, false, []⟩)], []⟩ : World).trace 0 + 1
    ∧ sigCountOf ((connection.disconnect ⟨some 0, 5⟩
          (⟨[(0, ⟨1, 2, 3, false, []⟩)], []⟩ : World)).run []).trace 0 =
        sigCountOf (connection.disconnect ⟨some 0, 5⟩
          (⟨[(0, ⟨1, 2, 3, false, []⟩)], []⟩ : World)).trace 0 :=
  ⟨(C1_disconnect_permanent_idempotent ⟨[(0, ⟨1, 2, 3, false, []⟩)], []⟩
      ⟨some 0, 5⟩ ⟨some 0, 5⟩ 0 [] rfl rfl).1,
   (C1_disconnect_permanent_idempotent ⟨[(0, ⟨1, 2, 3, false, []⟩)], []⟩
      ⟨some 0, 5⟩ ⟨some 0, 5⟩ 0 [] rfl rfl).2.1,
   (C1_disconnect_permanent_idempotent ⟨[(0, ⟨1, 2, 3, false, []⟩)], []⟩
      ⟨some 0, 5⟩ ⟨some 0, 5⟩ 0 [] rfl rfl).2.2.1 rfl,
   (C1_disconnect_permanent_idempotent ⟨[(0, ⟨1, 2, 3, false, []⟩)], []⟩
      ⟨some 0, 5⟩ ⟨some 0, 5⟩ 0 [] rfl rfl).2.2.2⟩

/-- C6: on a connection whose body is alive, block(true) makes blocked()
report true, unblock() makes it report false, and neither block(true),
block(false) nor unblock() changes the value of connected(). -/
theorem C6_block_toggles (w : World) (c : connection) (a : Nat)
    (ha : c.slot_ = some a) (halive : (findBody w.bodies a).isSome = true) :
    connection.blocked c (connection.block c true w) = true
    ∧ connection.blocked c (connection.unblock c w) = false
    ∧ connection.connected c (connection.block c true w) =
        connection.connected c w
    ∧ connection.connected c (connection.block c false w) =
        connection.connected c w
    ∧ connection.connected c (connection.unblock c w) =
        connection.connected c w := by
  obtain ⟨b, hb⟩ := Option.isSome_iff_exists.mp halive
  refine ⟨?_, ?_, ?_, ?_, ?_⟩ <;>
    simp [connection.blocked, connection.block, connection.unblock,
      connection.connected, ha, hb, findBody_setBlocked]

/-- C6 witness: one live unblocked body at address 0 and a handle to it;
the toggle claims evaluated there. -/
theorem C6_block_toggles_witness :
    ((⟨some 0, 4⟩ : connection).slot_ = some 0)
    ∧ connection.blocked ⟨some 0, 4⟩
        (connection.block ⟨some 0, 4⟩ true
          (⟨[(0, ⟨1, 2, 3, false, []⟩)], []⟩ : World)) = true
    ∧ connection.blocked ⟨some 0, 4⟩
        (connection.unblock ⟨some 0, 4⟩
          (⟨[(0, ⟨1, 2, 3, false, []⟩)], []⟩ : World)) = false
    ∧ connection.connected ⟨some 0, 4⟩
        (connection.block ⟨some 0, 4⟩ true
          (⟨[(0, ⟨1, 2, 3, false, []⟩)], []⟩ : World)) =
        connection.connected ⟨some 0, 4⟩
          (⟨[(0, ⟨1, 2, 3, false, []⟩)], []⟩ : World) :=
  ⟨rfl,
   (C6_block_toggles ⟨[(0, ⟨1, 2, 3, false, []⟩)], []⟩ ⟨some 0, 4⟩ 0
      rfl rfl).1,
   (C6_block_toggles ⟨[(0, ⟨1, 2, 3, false, []⟩)], []⟩ ⟨some 0, 4⟩ 0
      rfl rfl).2.1,
   (C6_block_toggles ⟨[(0, ⟨1, 2, 3, false, []⟩)], []⟩ ⟨some 0, 4⟩ 0
      rfl rfl).2.2.1⟩

/-- C7: a default-constructed connection has no body, so connected() is
false in every world and block/unblock/disconnect leave the world
untouched; its identity is the fresh handle address, so two separate
default constructions (distinct addresses) compare unequal while a copy
of a default-constructed connection compares equal to its original. -/
theorem C7_default_connection (w : World) (a b : Nat) (hab : a ≠ b) :
    connection.connected (connection.default a) w = false
    ∧ (∀ v : Bool, connection.block (connection.default a) v w = w)
    ∧ connection.unblock (connection.default a) w = w
    ∧ connection.disconnect (connection.default a) w = w
    ∧ connection.ceq (connection.default a) (connection.default b) = false
    ∧ connection.ceq (connection.copy (connection.default a))
        (connection.default a) = true := by
  refine ⟨rfl, fun v => rfl, rfl, rfl, ?_, ?_⟩
  · simp [connection.ceq, connection.default, hab]
  · simp [connection.ceq, connection.copy, connection.default]

/-- C7 witness: default constructions at the distinct addresses 3 and 5,
evaluated in a world with no bodies. -/
theorem C7_default_connection_witness :
    (3 : Nat) ≠ 5
    ∧ connection.connected (connection.default 3)
        (⟨[], []⟩ : World) = false
    ∧ connection.block (connection.default 3) true (⟨[], []⟩ : World) =
        (⟨[], []⟩ : World)
    ∧ connection.unblock (connection.default 3) (⟨[], []⟩ : World) =
        (⟨[], []⟩ : World)
    ∧ connection.disconnect (connection.default 3) (⟨[], []⟩ : World) =
        (⟨[], []⟩ : World)
    ∧ connection.ceq (connection.default 3) (connection.default 5) = false
    ∧ connection.ceq (connection.copy (connection.default 3))
        (connection.default 3) = true :=
  ⟨by decide,
   (C7_default_connection ⟨[], []⟩ 3 5 (by decide)).1,
   (C7_default_connection ⟨[], []⟩ 3 5 (by decide)).2.1 true,
   (C7_default_connection ⟨[], []⟩ 3 5 (by decide)).2.2.1,
   (C7_default_connection ⟨[], []⟩ 3 5 (by decide)).2.2.2.1,
   (C7_default_connection ⟨[], []⟩ 3 5 (by decide)).2.2.2.2.1,
   (C7_default_connection ⟨[], []⟩ 3 5 (by decide)).2.2.2.2.2⟩
